import Mathlib

/-!
Verification of the keybear password-vault server core against its
natural-language specification.

The Rust sources under `src/` are shallowly embedded below.  Bytes are `Nat`
values (reduced mod 256 where the code produces them), byte strings are
`List Nat`, Rust `String` ids are Lean `String`, fallible code returns
`Except`.  The third-party crypto crates the code calls (`x25519_dalek`,
`chacha20poly1305`, and the `keybear_core::crypto` helpers that are not part
of `src/`) are modelled from the specification, as noted on each definition.
-/

deriving instance DecidableEq for Except

namespace Keybear

/-! ## Byte and word helpers (little-endian, as used by ChaCha20-Poly1305) -/

/-- Little-endian serialization of a natural number into `k` bytes. -/
def natToLeBytes : Nat → Nat → List Nat
  | 0, _ => []
  | k + 1, n => n % 256 :: natToLeBytes k (n / 256)

/-- Little-endian interpretation of a byte list as a natural number. -/
def leBytesToNat (bs : List Nat) : Nat :=
  bs.foldr (fun b acc => b + 256 * acc) 0

/-- Serialize a 32-bit word into its four little-endian bytes. -/
def wordToBytes (w : Nat) : List Nat :=
  [w % 256, w / 256 % 256, w / 65536 % 256, w / 16777216 % 256]

/-- The `i`-th little-endian 32-bit word of a byte string (missing bytes read as 0). -/
def wordAt (bs : List Nat) (i : Nat) : Nat :=
  bs.getD (4 * i) 0 + 256 * bs.getD (4 * i + 1) 0 + 65536 * bs.getD (4 * i + 2) 0 +
    16777216 * bs.getD (4 * i + 3) 0

/-- Group a byte string into little-endian 32-bit words. -/
def bytesToWords (bs : List Nat) : List Nat :=
  (List.range ((bs.length + 3) / 4)).map (wordAt bs)

/-- Serialize a list of 32-bit words into little-endian bytes. -/
def serializeWords (ws : List Nat) : List Nat :=
  ws.flatMap wordToBytes

/-- Rotate a 32-bit word left by `n` bits. -/
def rotl32 (x n : Nat) : Nat :=
  (x * 2 ^ n + x / 2 ^ (32 - n)) % 2 ^ 32

/-! ## ChaCha20 block function

Modelled from the spec: §4.6 instantiates the session cipher as the
ChaCha20-Poly1305 AEAD provided by the external `chacha20poly1305` crate,
whose source is not part of this repository; the cipher is embedded here
following its standard definition (RFC 8439). -/

/-- One ChaCha20 quarter round applied to positions `ia ib ic id` of the state. -/
def quarterRound (s : List Nat) (ia ib ic id : Nat) : List Nat :=
  let a := s.getD ia 0
  let b := s.getD ib 0
  let c := s.getD ic 0
  let d := s.getD id 0
  let a := (a + b) % 2 ^ 32
  let d := rotl32 (d ^^^ a) 16
  let c := (c + d) % 2 ^ 32
  let b := rotl32 (b ^^^ c) 12
  let a := (a + b) % 2 ^ 32
  let d := rotl32 (d ^^^ a) 8
  let c := (c + d) % 2 ^ 32
  let b := rotl32 (b ^^^ c) 7
  ((((s.set ia a).set ib b).set ic c).set id d)

/-- One ChaCha20 double round: four column rounds then four diagonal rounds. -/
def doubleRound (s : List Nat) : List Nat :=
  let s := quarterRound s 0 4 8 12
  let s := quarterRound s 1 5 9 13
  let s := quarterRound s 2 6 10 14
  let s := quarterRound s 3 7 11 15
  let s := quarterRound s 0 5 10 15
  let s := quarterRound s 1 6 11 12
  let s := quarterRound s 2 7 8 13
  quarterRound s 3 4 9 14

/-- The twenty ChaCha20 rounds (ten double rounds). -/
def chachaRounds (s : List Nat) : List Nat :=
  doubleRound^[10] s

/-- The initial ChaCha20 state for a 32-byte key, a block counter and a 12-byte nonce. -/
def chachaInit (key nonce : List Nat) (counter : Nat) : List Nat :=
  [0x61707865, 0x3320646e, 0x79622d32, 0x6b206574] ++ bytesToWords key ++
    [counter % 2 ^ 32] ++ bytesToWords nonce

/-- The 64-byte ChaCha20 block for a key, nonce and block counter. -/
def chachaBlock (key nonce : List Nat) (counter : Nat) : List Nat :=
  let init := chachaInit key nonce counter
  serializeWords (List.zipWith (fun a b => (a + b) % 2 ^ 32) (chachaRounds init) init)

/-- The ChaCha20 keystream made of `nblocks` blocks starting at block counter `counter`. -/
def keystream (key nonce : List Nat) : Nat → Nat → List Nat
  | 0, _ => []
  | nblocks + 1, counter => chachaBlock key nonce counter ++ keystream key nonce nblocks (counter + 1)

/-! ## Poly1305 authenticator (RFC 8439), same modelling note as ChaCha20. -/

/-- Split a byte string into blocks of at most 16 bytes; the first argument is fuel. -/
def chunk16 : Nat → List Nat → List (List Nat)
  | 0, _ => []
  | _, [] => []
  | fuel + 1, bs => bs.take 16 :: chunk16 fuel (bs.drop 16)

/-- Clamp the Poly1305 `r` value. -/
def clampR (r : Nat) : Nat :=
  r &&& 0x0ffffffc0ffffffc0ffffffc0fffffff

/-- The 16-byte Poly1305 tag of a message under a 32-byte one-time key. -/
def poly1305 (key msg : List Nat) : List Nat :=
  let r := clampR (leBytesToNat (key.take 16))
  let s := leBytesToNat (key.drop 16)
  let p := 2 ^ 130 - 5
  let acc := (chunk16 msg.length msg).foldl
    (fun acc blk => (acc + (leBytesToNat blk + 2 ^ (8 * blk.length))) * r % p) 0
  natToLeBytes 16 ((acc + s) % 2 ^ 128)

/-- Zero padding up to the next 16-byte boundary. -/
def pad16 (len : Nat) : List Nat :=
  List.replicate ((16 - len % 16) % 16) 0

/-- The byte string authenticated by the AEAD construction (empty associated data). -/
def macData (aad ct : List Nat) : List Nat :=
  aad ++ pad16 aad.length ++ ct ++ pad16 ct.length ++
    natToLeBytes 8 aad.length ++ natToLeBytes 8 ct.length

/-- The Poly1305 one-time key: the first 32 keystream bytes of block 0. -/
def polyKeyOf (key nonce : List Nat) : List Nat :=
  (chachaBlock key nonce 0).take 32

/-- ChaCha20-Poly1305 AEAD encryption: ciphertext followed by the embedded 16-byte tag. -/
def aeadEncrypt (key nonce msg : List Nat) : List Nat :=
  let ks := keystream key nonce ((msg.length + 63) / 64) 1
  let ct := List.zipWith (fun a b => a ^^^ b) msg ks
  ct ++ poly1305 (polyKeyOf key nonce) (macData [] ct)

/-- ChaCha20-Poly1305 AEAD decryption: verify the embedded tag, then decrypt. -/
def aeadDecrypt (key nonce c : List Nat) : Except String (List Nat) :=
  if c.length < 16 then .error "aead error"
  else
    let ct := c.take (c.length - 16)
    let tag := c.drop (c.length - 16)
    if tag = poly1305 (polyKeyOf key nonce) (macData [] ct) then
      .ok (List.zipWith (fun a b => a ^^^ b) ct (keystream key nonce ((ct.length + 63) / 64) 1))
    else .error "aead error"

/-! ## UTF-8 validity

Models the check performed by Rust's `String::from_utf8` (RFC 3629): a Rust
`String` is represented here as its list of UTF-8 bytes. -/

/-- Whether a byte is a UTF-8 continuation byte (`0x80..0xBF`). -/
def isCont (b : Nat) : Bool :=
  0x80 ≤ b && b < 0xC0

/-- Whether a byte list is valid UTF-8, per RFC 3629. -/
def utf8Valid : List Nat → Bool
  | [] => true
  | b :: rest =>
    if b < 0x80 then utf8Valid rest
    else if b < 0xC2 then false
    else if b < 0xE0 then
      match rest with
      | b1 :: r => isCont b1 && utf8Valid r
      | _ => false
    else if b < 0xF0 then
      match rest with
      | b1 :: b2 :: r =>
        (if b = 0xE0 then 0xA0 ≤ b1 && b1 < 0xC0
         else if b = 0xED then 0x80 ≤ b1 && b1 < 0xA0
         else isCont b1) && isCont b2 && utf8Valid r
      | _ => false
    else if b < 0xF5 then
      match rest with
      | b1 :: b2 :: b3 :: r =>
        (if b = 0xF0 then 0x90 ≤ b1 && b1 < 0xC0
         else if b = 0xF4 then 0x80 ≤ b1 && b1 < 0x90
         else isCont b1) && isCont b2 && isCont b3 && utf8Valid r
      | _ => false
    else false

/-! ## Curve25519 Diffie-Hellman

Modelled from the spec: the key agreement (`x25519_dalek`'s
`StaticSecret::diffie_hellman`, called by `Device::shared_key` in
`src/device/mod.rs`) is external crate code.  Per §4.6 and the glossary the
shared secret is "scalar multiplication of server secret by the device public
key (Curve25519-class)"; the prime-order subgroup in which those scalar
multiples live is embedded via its discrete logarithms, so a point is a
residue mod the subgroup order and scalar multiplication is modular
multiplication.  Secrets are `Nat` scalars and public keys are residues. -/

/-- The order of the prime-order subgroup of Curve25519. -/
def curveOrder : Nat :=
  2 ^ 252 + 27742317777372353535851937790883648493

/-- The public key derived from a secret scalar (the basepoint has x-coordinate 9). -/
def publicOf (s : Nat) : Nat :=
  s * 9 % curveOrder

/-- The Diffie-Hellman shared secret of a secret scalar and a public key. -/
def dhShared (s p : Nat) : Nat :=
  s * p % curveOrder

/-- The 32 little-endian bytes of a shared secret, as used for the symmetric key. -/
def sharedToBytes (x : Nat) : List Nat :=
  natToLeBytes 32 x

/-! ## Session crypto of `src/crypto/mod.rs` -/

/-- The fixed nonce `b"unique nonce"` hard-coded in `src/crypto/mod.rs`. -/
def fixedNonce : List Nat :=
  [117, 110, 105, 113, 117, 101, 32, 110, 111, 110, 99, 101]

/-- Nonce-parametric encryption: AEAD-encrypt a message under a shared secret.
Modelled from the spec §4.6 encrypt-contract (shared secret, nonce, payload);
`src/crypto/mod.rs` instantiates it with the fixed nonce. -/
def encryptWithNonce (sharedSecret : Nat) (nonce msg : List Nat) : List Nat :=
  aeadEncrypt (sharedToBytes sharedSecret) nonce msg

/-- Nonce-parametric decryption with the UTF-8 re-validation step performed by
`String::from_utf8` in `src/crypto/mod.rs`'s `decrypt`. -/
def decryptWithNonce (sharedSecret : Nat) (nonce c : List Nat) : Except String (List Nat) :=
  match aeadDecrypt (sharedToBytes sharedSecret) nonce c with
  | .ok bytes => if utf8Valid bytes then .ok bytes else .error "not valid UTF8"
  | .error e => .error e

/-- `crypto::encrypt` of `src/crypto/mod.rs`: ChaCha20-Poly1305 with the fixed nonce. -/
def cryptoEncrypt (sharedSecret : Nat) (msg : List Nat) : List Nat :=
  encryptWithNonce sharedSecret fixedNonce msg

/-- `crypto::decrypt` of `src/crypto/mod.rs`: decrypt then parse as UTF-8. -/
def cryptoDecrypt (sharedSecret : Nat) (c : List Nat) : Except String (List Nat) :=
  decryptWithNonce sharedSecret fixedNonce c

/-! ## Key-Material Manager (`StaticSecretExt` in `src/crypto/mod.rs`)

The file system is abstracted to the single configured path: the path is
either absent, a regular file with contents, or some other kind of node
(directory and the like). -/

/-- What exists at the configured key path. -/
inductive FileNode where
  | absent : FileNode
  | regular : List Nat → FileNode
  | nonRegular : FileNode
deriving DecidableEq, Repr

/-- `StaticSecret::verify_file`: `file.is_file()` (note the source's
"TODO: add more checks" comment: no size check is performed). -/
def verifyFile : FileNode → Bool
  | .regular _ => true
  | _ => false

/-- `StaticSecret::from_file`: check `verify_file`, open, then `read_exact` 32 bytes,
which consumes the first 32 bytes and fails only when fewer are available. -/
def fromFile (f : FileNode) : Except String (List Nat) :=
  if verifyFile f = false then .error "not a valid file"
  else
    match f with
    | .regular bytes =>
      if bytes.length < 32 then .error "wrong size"
      else .ok (bytes.take 32)
    | _ => .error "not a valid file"

/-- `StaticSecret::save`: `fs::write` creates or truncates a regular file; it
fails when the path is occupied by a non-regular node such as a directory. -/
def saveKey (key : List Nat) (f : FileNode) : Except String FileNode :=
  match f with
  | .nonRegular => .error "could not write"
  | _ => .ok (.regular key)

/-- `StaticSecret::from_file_or_generate`: load when `verify_file` passes,
otherwise generate a fresh key (`generated`, sampled by the OS RNG) and save
it.  Returns the resulting secret and the resulting state of the path. -/
def fromFileOrGenerate (generated : List Nat) (f : FileNode) :
    Except String (List Nat × FileNode) :=
  if verifyFile f then
    match fromFile f with
    | .ok key => .ok (key, f)
    | .error e => .error e
  else
    match saveKey generated f with
    | .ok f' => .ok (generated, f')
    | .error e => .error e

/-! ## Loopback guard (`src/net/mod.rs`) -/

/-- A peer IP address: four IPv4 octets or eight IPv6 segments. -/
inductive IpAddress where
  | v4 : Nat → Nat → Nat → Nat → IpAddress
  | v6 : List Nat → IpAddress
deriving DecidableEq, Repr

/-- `is_valid_client_ip`: only the IPv4 loopback address is accepted. -/
def isValidClientIp : IpAddress → Bool
  | .v4 a b c d => a = 127 && b = 0 && c = 0 && d = 1
  | .v6 _ => false

/-- `TorGuard::check`: pass the peer address to `is_valid_client_ip`; a request
without a peer address is rejected. -/
def torGuardCheck : Option IpAddress → Bool
  | some addr => isValidClientIp addr
  | none => false

/-! ## Error model

Actix error constructors are identified by the HTTP status they produce:
`ErrorUnauthorized` 401, `ErrorBadRequest` 400, `ErrorNotFound` 404,
`ErrorInternalServerError` 500. -/

/-- An actix web error, identified by its HTTP status code. -/
structure ApiErr where
  status : Nat
deriving DecidableEq, Repr

/-! ## Device registry (`src/device/mod.rs` and `src/device/register.rs`) -/

/-- A device record.  The `nonce` slot is the one of the `Device` built by
`ToDevice::to_device` in `src/device/register.rs` (the `src/device/mod.rs`
variant of the struct predates the slot and simply never touches it). -/
structure Device where
  id : String
  name : String
  publicKey : Nat
  nonce : Option (List Nat)
deriving DecidableEq, Repr

/-- `Device::shared_key`: `server_key.diffie_hellman(&self.public_key)`. -/
def Device.sharedKey (d : Device) (serverKey : Nat) : Nat :=
  dhShared serverKey d.publicKey

/-- The enrolled-device collection (`Devices`). -/
structure Devices where
  devices : List Device
deriving DecidableEq, Repr

/-- `Devices::register`: push the device onto the collection. -/
def Devices.register (ds : Devices) (d : Device) : Devices :=
  ⟨ds.devices ++ [d]⟩

/-- `Devices::find`: first device whose id matches. -/
def Devices.find (ds : Devices) (id : String) : Option Device :=
  ds.devices.find? (fun device => device.id == id)

/-- `Vec::is_empty` on the enrolled collection. -/
def Devices.isEmpty (ds : Devices) : Bool :=
  ds.devices.isEmpty

/-- The pending-verification collection (`VerificationDevices`): pairs of a
verification code and a device. -/
structure VerificationDevices where
  devices : List (String × Device)
deriving DecidableEq, Repr

/-- `VerificationDevices::register`: push the `(code, device)` pair. -/
def VerificationDevices.register (vs : VerificationDevices) (d : Device) (code : String) :
    VerificationDevices :=
  ⟨vs.devices ++ [(code, d)]⟩

/-- `VerificationDevices::find`: first pair whose device id matches. -/
def VerificationDevices.find (vs : VerificationDevices) (id : String) :
    Option (String × Device) :=
  vs.devices.find? (fun e => e.2.id == id)

/-- `VerificationDevices::remove`: retain only the pairs with a different id. -/
def VerificationDevices.remove (vs : VerificationDevices) (id : String) : VerificationDevices :=
  ⟨vs.devices.filter (fun e => e.2.id != id)⟩

/-- The device-related contents of the key-value store: the `devices` key and
the `verification_devices` key. -/
structure Store where
  devices : Devices
  verificationDevices : VerificationDevices
deriving DecidableEq, Repr

/-- Whether `id` occurs in the enrolled set of a store state. -/
def Store.enrolledB (st : Store) (id : String) : Bool :=
  st.devices.devices.any (fun d => d.id == id)

/-- Whether `id` occurs in the pending-verification set of a store state. -/
def Store.pendingB (st : Store) (id : String) : Bool :=
  st.verificationDevices.devices.any (fun e => e.2.id == id)

/-- The response of `POST /v1/register` (`RegisterDeviceResponse`). -/
structure RegisterDeviceResponse where
  id : String
  name : String
  serverPublicKey : Nat
  verificationCode : String
deriving DecidableEq, Repr

/-- `Device::to_register_device_result`: the registration response carries the
device id and name, `PublicKey::from(server_key)` and the verification code. -/
def Device.toRegisterDeviceResult (d : Device) (serverKey : Nat) (code : String) :
    RegisterDeviceResponse :=
  ⟨d.id, d.name, publicOf serverKey, code⟩

/-- The `register` handler of `src/device/register.rs` (lines 121-176).  The
freshly converted device (with its random id, from `to_device`) and the
freshly generated verification code (`VerificationCode::generate`, backed by
the external `chbs` passphrase crate) enter as parameters.  If no device is
enrolled yet the device goes straight into the enrolled set and the returned
code is empty; otherwise the pair goes into the pending set. -/
def registerHandler (serverKey : Nat) (st : Store) (device : Device) (code : String) :
    Store × RegisterDeviceResponse :=
  if st.devices.isEmpty then
    ({ st with devices := st.devices.register device },
      device.toRegisterDeviceResult serverKey "")
  else
    ({ st with verificationDevices := st.verificationDevices.register device code },
      device.toRegisterDeviceResult serverKey code)

/-- The request body of `POST /v1/verify` (`NeedsVerificationDevice`). -/
structure NeedsVerificationDevice where
  id : String
  name : String
  verificationCode : String
deriving DecidableEq, Repr

/-- Rust's `str::starts_with`, embedded as a character-list comparison. -/
def strStartsWith (s pre : String) : Bool :=
  pre.data.isPrefixOf s.data

/-- The `verify` handler of `src/device/register.rs` (lines 179-240).  Returns
the sequence of store states committed by its writes (the handler first calls
`set_verification_devices`, then `set_devices`; each write is observable by
concurrent readers) together with the outcome.  An error commits no write. -/
def verifyHandler (st : Store) (clientId : String) (req : NeedsVerificationDevice) :
    List Store × Except ApiErr Unit :=
  if strStartsWith req.id clientId then
    ([], .error ⟨400⟩)
  else
    match st.verificationDevices.find req.id with
    | none => ([], .error ⟨404⟩)
    | some (code, device) =>
      if code = req.verificationCode then
        let devices' := st.devices.register device
        let verification' := st.verificationDevices.remove req.id
        ([{ st with verificationDevices := verification' },
          { devices := devices', verificationDevices := verification' }], .ok ())
      else ([], .error ⟨400⟩)

/-! ## Nonce coordinator (`src/device/nonce.rs`)

The `Device::generate_nonce`, `Device::nonce`, `AppState::device` and
`AppState::set_device` methods the handler calls belong to a revision of
`src/device/mod.rs` that is not under `src/`; they are modelled from the spec
§4.5: the coordinator stores the random 12-byte nonce in the device's `nonce`
slot, and the next authenticated request reads and clears it before use. -/

/-- Modelled from the spec: `AppState::set_device` persists an updated device
record in place of the record with the same id. -/
def Devices.setDevice (ds : Devices) (d : Device) : Devices :=
  ⟨ds.devices.map (fun e => if e.id == d.id then d else e)⟩

/-- Modelled from the spec: `Device::generate_nonce` stamps a freshly sampled
12-byte random nonce into the device's nonce slot. -/
def Device.generateNonce (d : Device) (fresh : List Nat) : Device :=
  { d with nonce := some fresh }

/-- The `nonce` handler of `src/device/nonce.rs`: require the client-id
header (else `ErrorBadRequest`), look the device up (failure maps through
`ErrorBadRequest`), stamp a fresh nonce, persist the device and return the
nonce. -/
def nonceHandler (st : Store) (header : Option String) (fresh : List Nat) :
    Except ApiErr (Store × List Nat) :=
  match header with
  | none => .error ⟨400⟩
  | some id =>
    match st.devices.find id with
    | none => .error ⟨400⟩
    | some device =>
      let device := device.generateNonce fresh
      .ok ({ st with devices := st.devices.setDevice device }, fresh)

/-- Modelled from the spec (§4.5, §4.8 step 5): an authenticated request
consumes the stored nonce of the requesting enrolled device — a missing
device or an absent nonce yields 401 (unauthorized), and on success the slot
is cleared before the nonce is handed to decryption. -/
def consumeNonce (st : Store) (id : String) : Except ApiErr (Store × List Nat) :=
  match st.devices.find id with
  | none => .error ⟨401⟩
  | some device =>
    match device.nonce with
    | none => .error ⟨401⟩
    | some n =>
      .ok ({ st with devices := st.devices.setDevice { device with nonce := none } }, n)

/-! ## Encrypted request pipeline (`src/crypto/middleware.rs`, `src/crypto/json.rs`,
`src/body.rs`) -/

/-- An HTTP response: a status code and a body. -/
structure Response where
  status : Nat
  body : List Nat
deriving DecidableEq, Repr

/-- `StatusCode::is_success`: the 2xx range. -/
def isSuccess (status : Nat) : Bool :=
  200 ≤ status && status < 300

/-- `encrypt_response` in `src/crypto/middleware.rs`: error responses are
passed through untouched; a success body is re-read as a UTF-8 string
(failure surfaces through `ErrorInternalServerError`) and replaced by its
encryption under the target device's shared key. -/
def encryptResponse (serverKey : Nat) (device : Device) (resp : Response) :
    Except ApiErr Response :=
  if isSuccess resp.status = false then .ok resp
  else if utf8Valid resp.body then
    .ok ⟨resp.status, cryptoEncrypt (device.sharedKey serverKey) resp.body⟩
  else .error ⟨500⟩

/-- `EncryptedMiddleware::call` in `src/crypto/middleware.rs`: require the
client-id header (else 401), look the device up among the enrolled devices
(else 401), read the body, and — only when the body is non-empty — decrypt it
under the device's shared key, any failure mapping to `ErrorUnauthorized`.
The decrypted message is dropped and the inner service is invoked on a
payload rebuilt from the original body bytes; its successful response is then
encrypted for the device. -/
def middlewareCall (serverKey : Nat) (devices : Devices) (header : Option String)
    (body : List Nat) (inner : List Nat → Except ApiErr Response) : Except ApiErr Response :=
  match header with
  | none => .error ⟨401⟩
  | some id =>
    match devices.find id with
    | none => .error ⟨401⟩
    | some device =>
      let decryptCheck : Except ApiErr Unit :=
        if body.isEmpty then .ok ()
        else
          match cryptoDecrypt (device.sharedKey serverKey) body with
          | .ok _ => .ok ()
          | .error _ => .error ⟨401⟩
      match decryptCheck with
      | .error e => .error e
      | .ok _ =>
        match inner body with
        | .error e => .error e
        | .ok res => encryptResponse serverKey device res

/-- `EncryptedJson::from_request` in `src/crypto/json.rs`: missing header or
unknown device give 401; a decryption failure gives `ErrorBadRequest`; the
decrypted string is deserialized by `serde_json` (modelled by the `parse`
parameter, matching the handler's payload type), failure again giving 400. -/
def encryptedJsonFromRequest (parse : List Nat → Except String α) (serverKey : Nat)
    (devices : Devices) (header : Option String) (body : List Nat) : Except ApiErr α :=
  match header with
  | none => .error ⟨401⟩
  | some id =>
    match devices.find id with
    | none => .error ⟨401⟩
    | some device =>
      match cryptoDecrypt (device.sharedKey serverKey) body with
      | .error _ => .error ⟨400⟩
      | .ok msg =>
        match parse msg with
        | .ok v => .ok v
        | .error _ => .error ⟨400⟩

/-- Modelled from the spec §4.6 decrypt-contract: `keybear_core`'s typed
`crypto::decrypt` (not under `src/`) AEAD-decrypts the ciphertext and
deserializes the payload object (`parse`). -/
def coreDecrypt (parse : List Nat → Except String α) (sharedSecret : Nat) (c : List Nat) :
    Except String α :=
  match aeadDecrypt (sharedToBytes sharedSecret) fixedNonce c with
  | .ok plaintext => parse plaintext
  | .error e => .error e

/-- `EncryptedBody::from_request` in `src/body.rs`: a missing header maps
through `ErrorUnauthorized`, so does an unknown device; the typed decryption
(`Device::decrypt`, via `keybear_core`) maps its failure through
`ErrorInternalServerError`; on success the decoded data and the client id are
stored in the extractor handed to the handler. -/
def encryptedBodyFromRequest (parse : List Nat → Except String α) (serverKey : Nat)
    (devices : Devices) (header : Option String) (body : List Nat) :
    Except ApiErr (α × String) :=
  match header with
  | none => .error ⟨401⟩
  | some id =>
    match devices.find id with
    | none => .error ⟨401⟩
    | some device =>
      match coreDecrypt parse (device.sharedKey serverKey) body with
      | .error _ => .error ⟨500⟩
      | .ok v => .ok (v, id)

/-! ## Supporting lemmas -/

theorem natToLeBytes_length (k n : Nat) : (natToLeBytes k n).length = k := by
  induction k generalizing n with
  | zero => rfl
  | succ k ih => simp [natToLeBytes, ih]

theorem bytesToWords_length (bs : List Nat) :
    (bytesToWords bs).length = (bs.length + 3) / 4 := by
  simp [bytesToWords]

theorem serializeWords_length (ws : List Nat) :
    (serializeWords ws).length = 4 * ws.length := by
  induction ws with
  | nil => rfl
  | cons w ws ih =>
    simp [serializeWords, List.flatMap_cons, wordToBytes] at ih ⊢
    omega

theorem quarterRound_length (s : List Nat) (ia ib ic id : Nat) :
    (quarterRound s ia ib ic id).length = s.length := by
  simp [quarterRound]

theorem doubleRound_length (s : List Nat) : (doubleRound s).length = s.length := by
  simp [doubleRound, quarterRound_length]

theorem chachaRounds_length (s : List Nat) : (chachaRounds s).length = s.length := by
  unfold chachaRounds
  generalize 10 = k
  induction k with
  | zero => rfl
  | succ k ih => rw [Function.iterate_succ_apply', doubleRound_length, ih]

theorem chachaInit_length (key nonce : List Nat) (counter : Nat)
    (hk : key.length = 32) (hn : nonce.length = 12) :
    (chachaInit key nonce counter).length = 16 := by
  simp [chachaInit, bytesToWords_length, hk, hn]

theorem chachaBlock_length (key nonce : List Nat) (counter : Nat)
    (hk : key.length = 32) (hn : nonce.length = 12) :
    (chachaBlock key nonce counter).length = 64 := by
  simp [chachaBlock, serializeWords_length, chachaRounds_length,
    chachaInit_length key nonce counter hk hn]

theorem keystream_length (key nonce : List Nat) (nblocks counter : Nat)
    (hk : key.length = 32) (hn : nonce.length = 12) :
    (keystream key nonce nblocks counter).length = 64 * nblocks := by
  induction nblocks generalizing counter with
  | zero => rfl
  | succ k ih =>
    simp [keystream, chachaBlock_length key nonce counter hk hn, ih]
    omega

theorem poly1305_length (key msg : List Nat) : (poly1305 key msg).length = 16 := by
  simp [poly1305, natToLeBytes_length]

theorem sharedToBytes_length (x : Nat) : (sharedToBytes x).length = 32 :=
  natToLeBytes_length 32 x

theorem zipWith_xor_cancel (m ks : List Nat) (h : m.length ≤ ks.length) :
    List.zipWith (fun a b => a ^^^ b) (List.zipWith (fun a b => a ^^^ b) m ks) ks = m := by
  induction m generalizing ks with
  | nil => simp
  | cons x xs ih =>
    cases ks with
    | nil => simp at h
    | cons k kt =>
      simp only [List.zipWith, List.cons.injEq]
      exact ⟨Nat.xor_cancel_right k x, ih kt (by simpa using h)⟩

/-- ChaCha20-Poly1305 decryption inverts encryption under the same key and nonce. -/
theorem aead_roundtrip (key nonce m : List Nat) (hk : key.length = 32)
    (hn : nonce.length = 12) :
    aeadDecrypt key nonce (aeadEncrypt key nonce m) = .ok m := by
  have hkslen : (keystream key nonce ((m.length + 63) / 64) 1).length =
      64 * ((m.length + 63) / 64) := keystream_length key nonce _ 1 hk hn
  have hks : m.length ≤ (keystream key nonce ((m.length + 63) / 64) 1).length := by
    rw [hkslen]; omega
  have hct : (List.zipWith (fun a b => a ^^^ b) m
      (keystream key nonce ((m.length + 63) / 64) 1)).length = m.length := by
    rw [List.length_zipWith]; exact Nat.min_eq_left hks
  unfold aeadEncrypt aeadDecrypt
  simp only []
  set ct := List.zipWith (fun a b => a ^^^ b) m
    (keystream key nonce ((m.length + 63) / 64) 1) with hctdef
  set tag := poly1305 (polyKeyOf key nonce) (macData [] ct) with htagdef
  have htaglen : tag.length = 16 := poly1305_length _ _
  have hlen : (ct ++ tag).length = m.length + 16 := by
    rw [List.length_append, hct, htaglen]
  rw [if_neg (by omega)]
  have hsub : (ct ++ tag).length - 16 = ct.length := by omega
  rw [hsub, List.take_left, List.drop_left, if_pos rfl, hct, hctdef]
  exact congrArg Except.ok (zipWith_xor_cancel m _ hks)

/-- The Diffie-Hellman shared secret is symmetric in its two parties. -/
theorem dhShared_symm (a b : Nat) : dhShared a (publicOf b) = dhShared b (publicOf a) := by
  unfold dhShared publicOf
  rw [Nat.mul_mod_mod, Nat.mul_mod_mod]
  ring_nf

theorem any_filter_ne (l : List (String × Device)) (id : String) :
    (l.filter (fun e => e.2.id != id)).any (fun e => e.2.id == id) = false := by
  rw [Bool.eq_false_iff]
  intro h
  rw [List.any_eq_true] at h
  obtain ⟨e, hmem, heq⟩ := h
  rw [List.mem_filter] at hmem
  rw [beq_iff_eq] at heq
  have := hmem.2
  rw [bne_iff_ne] at this
  exact this heq

theorem verification_find_id (vs : VerificationDevices) (id : String) (c : String) (d : Device)
    (h : vs.find id = some (c, d)) : d.id = id := by
  have := List.find?_some h
  rwa [beq_iff_eq] at this

theorem devices_find_id (ds : Devices) (id : String) (d : Device)
    (h : ds.find id = some d) : d.id = id := by
  have := List.find?_some h
  rwa [beq_iff_eq] at this

theorem find?_setDevice (l : List Device) (id : String) (d d' : Device)
    (hf : l.find? (fun e => e.id == id) = some d) (hd' : d'.id = id) :
    (l.map (fun e => if e.id == d'.id then d' else e)).find? (fun e => e.id == id) =
      some d' := by
  induction l with
  | nil => simp at hf
  | cons e t ih =>
    rw [List.find?_cons] at hf
    simp only [List.map_cons]
    rw [List.find?_cons]
    cases he : e.id == id with
    | true =>
      simp only [he] at hf
      rw [beq_iff_eq] at he
      have hed' : (e.id == d'.id) = true := by rw [beq_iff_eq, he, hd']
      simp only [hed', reduceIte]
      have hd'id : (d'.id == id) = true := by rw [beq_iff_eq, hd']
      simp [hd'id]
    | false =>
      simp only [he] at hf
      have hed' : (e.id == d'.id) = false := by
        rw [Bool.eq_false_iff]
        intro hcontra
        rw [beq_iff_eq, hd'] at hcontra
        rw [Bool.eq_false_iff] at he
        exact he (by rw [beq_iff_eq]; exact hcontra)
      simp only [hed', Bool.false_eq_true, reduceIte]
      simp only [he]
      exact ih hf

/-! ## Claim theorems -/

/-- C1: for every register request, if the enrolled device set is empty the
new device (carrying its freshly assigned id) is placed directly in the
enrolled set and the verification code in the response is the empty string;
otherwise the device is placed in the pending-verification set together with
the freshly generated verification code, which is returned non-empty.  In
both cases the response carries the server's public key. -/
theorem c1_register_bootstrap_or_pending (serverKey : Nat) (st : Store) (d : Device)
    (code : String) (hcode : code ≠ "") :
    (st.devices.isEmpty = true →
      registerHandler serverKey st d code =
        ({ st with devices := st.devices.register d },
          { id := d.id, name := d.name, serverPublicKey := publicOf serverKey,
            verificationCode := "" })) ∧
    (st.devices.isEmpty = false →
      registerHandler serverKey st d code =
        ({ st with verificationDevices := st.verificationDevices.register d code },
          { id := d.id, name := d.name, serverPublicKey := publicOf serverKey,
            verificationCode := code }) ∧
      code ≠ "") := by
  constructor
  · intro h
    simp [registerHandler, h, Device.toRegisterDeviceResult]
  · intro h
    exact ⟨by simp [registerHandler, h, Device.toRegisterDeviceResult], hcode⟩

/-- Witness for C1: the register handler evaluated on an empty and on a
non-empty enrolled set. -/
theorem c1_register_bootstrap_or_pending_witness :
    registerHandler 3 ⟨⟨[]⟩, ⟨[]⟩⟩ ⟨"a", "A", 45, none⟩ "pass" =
      (⟨⟨[⟨"a", "A", 45, none⟩]⟩, ⟨[]⟩⟩, ⟨"a", "A", publicOf 3, ""⟩) ∧
    registerHandler 3 ⟨⟨[⟨"a", "A", 45, none⟩]⟩, ⟨[]⟩⟩ ⟨"b", "B", 99, none⟩ "pass" =
      ((⟨⟨[⟨"a", "A", 45, none⟩]⟩, ⟨[("pass", ⟨"b", "B", 99, none⟩)]⟩⟩ : Store),
        ⟨"b", "B", publicOf 3, "pass"⟩) ∧
    ("pass" : String) ≠ "" :=
  ⟨(c1_register_bootstrap_or_pending 3 ⟨⟨[]⟩, ⟨[]⟩⟩ ⟨"a", "A", 45, none⟩ "pass"
      (by decide)).1 (by decide),
    (c1_register_bootstrap_or_pending 3 ⟨⟨[⟨"a", "A", 45, none⟩]⟩, ⟨[]⟩⟩
      ⟨"b", "B", 99, none⟩ "pass" (by decide)).2 (by decide)⟩

/-- C6: for every verify request whose requesting (verifier) device id is a
prefix of the target pending id, the handler returns 400 having committed no
write, so both the enrolled set and the pending-verification set are
unchanged and the pending device remains pending. -/
theorem c6_self_verify_rejected (st : Store) (clientId : String)
    (req : NeedsVerificationDevice) (h : strStartsWith req.id clientId = true) :
    verifyHandler st clientId req = ([], .error ⟨400⟩) := by
  simp [verifyHandler, h]

/-- Witness for C6: a pending device attempting to verify itself is rejected
with 400 and no store state is written. -/
theorem c6_self_verify_rejected_witness :
    strStartsWith "abc" "ab" = true ∧
    verifyHandler ⟨⟨[⟨"zz", "A", 1, none⟩]⟩, ⟨[("c", ⟨"abc", "B", 2, none⟩)]⟩⟩ "ab"
        ⟨"abc", "B", "c"⟩ = ([], .error ⟨400⟩) :=
  ⟨by decide,
    c6_self_verify_rejected ⟨⟨[⟨"zz", "A", 1, none⟩]⟩, ⟨[("c", ⟨"abc", "B", 2, none⟩)]⟩⟩
      "ab" ⟨"abc", "B", "c"⟩ (by decide)⟩

/-- C8: the loopback guard passes a request exactly when the peer address is
present and equal to IPv4 `127.0.0.1`; IPv6 addresses (including `::1`),
every other IPv4 address and an absent peer address are rejected. -/
theorem c8_loopback_guard (peer : Option IpAddress) :
    torGuardCheck peer = true ↔ peer = some (.v4 127 0 0 1) := by
  cases peer with
  | none => simp [torGuardCheck]
  | some addr =>
    cases addr with
    | v4 a b c d =>
      simp only [torGuardCheck, isValidClientIp, Bool.and_eq_true, decide_eq_true_eq,
        Option.some.injEq, IpAddress.v4.injEq]
      constructor
      · rintro ⟨⟨⟨ha, hb⟩, hc⟩, hd⟩
        exact ⟨ha, hb, hc, hd⟩
      · rintro ⟨ha, hb, hc, hd⟩
        exact ⟨⟨⟨ha, hb⟩, hc⟩, hd⟩
    | v6 segs => simp [torGuardCheck, isValidClientIp]

/-- C7: the key file loader does not reject an existing regular key file whose
size differs from 32 bytes — `verify_file` only checks `is_file()` (the
source carries a "TODO: add more checks"), and `read_exact` succeeds on any
file of at least 32 bytes, silently loading its first 32 bytes.  Evaluated
here at a 64-byte key file, which the claim (and §4.1) says must fail. -/
theorem c7_oversized_key_file_loaded :
    fromFileOrGenerate (List.replicate 32 7) (.regular (List.replicate 64 0)) =
      .ok (List.replicate 32 0, .regular (List.replicate 64 0)) := by
  rfl

/-- Counterexample for C5: promotion is not atomic with respect to readers.
After the handler's first write (`set_verification_devices`) and before its
second (`set_devices`) there is an observable store state in which the
promoted device id is in neither the pending set nor the enrolled set. -/
theorem c5_promotion_counterexample :
    (verifyHandler ⟨⟨[⟨"aaa", "A", 1, none⟩]⟩, ⟨[("c", ⟨"xyz", "X", 2, none⟩)]⟩⟩ "aaa"
        ⟨"xyz", "X", "c"⟩).1.any
      (fun s => !s.pendingB "xyz" && !s.enrolledB "xyz") = true := by
  decide

/-- C5 (amended): at every state observable during a successful promotion the
device id is in at most one of the two sets, and the final state has it
exactly in the enrolled set; but promotion commits two separate writes, and
in the intermediate state (pending removal committed, enrolled insertion not
yet) the id is in neither set, so promotion is not atomic. -/
theorem c5_promotion_two_writes (st : Store) (clientId : String)
    (req : NeedsVerificationDevice) (s1 s2 : Store)
    (hrun : verifyHandler st clientId req = ([s1, s2], .ok ()))
    (henr : st.enrolledB req.id = false) :
    (s1.pendingB req.id = false ∧ s1.enrolledB req.id = false) ∧
    (s2.pendingB req.id = false ∧ s2.enrolledB req.id = true) ∧
    (st.pendingB req.id && st.enrolledB req.id) = false ∧
    (s1.pendingB req.id && s1.enrolledB req.id) = false ∧
    (s2.pendingB req.id && s2.enrolledB req.id) = false := by
  unfold verifyHandler at hrun
  split at hrun
  · simp at hrun
  · split at hrun
    · simp at hrun
    · next code device hfind =>
      split at hrun
      · simp at hrun
        obtain ⟨hs1, hs2⟩ := hrun
        have hdid : device.id = req.id := verification_find_id _ _ _ _ hfind
        have hpend : (st.verificationDevices.remove req.id).devices.any
            (fun e => e.2.id == req.id) = false := any_filter_ne _ _
        have hpend1 : s1.pendingB req.id = false := by rw [← hs1]; exact hpend
        have hpend2 : s2.pendingB req.id = false := by rw [← hs2]; exact hpend
        have henr1 : s1.enrolledB req.id = false := by rw [← hs1]; exact henr
        have henr2 : s2.enrolledB req.id = true := by
          rw [← hs2]
          simp only [Store.enrolledB, Devices.register, List.any_append, List.any_cons,
            List.any_nil, Bool.or_false]
          rw [Store.enrolledB] at henr
          rw [henr, hdid]
          simp
        refine ⟨⟨hpend1, henr1⟩, ⟨hpend2, henr2⟩, ?_, ?_, ?_⟩
        · rw [henr, Bool.and_false]
        · rw [henr1, Bool.and_false]
        · rw [hpend2, Bool.false_and]
      · simp at hrun

/-- Witness for C5 (amended): a concrete promotion, its two committed store
states, and the in-at-most-one-set facts at each observable state. -/
theorem c5_promotion_two_writes_witness :
    verifyHandler ⟨⟨[⟨"aaa", "A", 1, none⟩]⟩, ⟨[("c", ⟨"xyz", "X", 2, none⟩)]⟩⟩ "aaa"
        ⟨"xyz", "X", "c"⟩ =
      ([⟨⟨[⟨"aaa", "A", 1, none⟩]⟩, ⟨[]⟩⟩,
        ⟨⟨[⟨"aaa", "A", 1, none⟩, ⟨"xyz", "X", 2, none⟩]⟩, ⟨[]⟩⟩], .ok ()) ∧
    ((⟨⟨[⟨"aaa", "A", 1, none⟩]⟩, ⟨[("c", ⟨"xyz", "X", 2, none⟩)]⟩⟩ : Store).enrolledB
        "xyz" = false) ∧
    (((⟨⟨[⟨"aaa", "A", 1, none⟩]⟩, ⟨[]⟩⟩ : Store).pendingB "xyz" = false ∧
      (⟨⟨[⟨"aaa", "A", 1, none⟩]⟩, ⟨[]⟩⟩ : Store).enrolledB "xyz" = false) ∧
     ((⟨⟨[⟨"aaa", "A", 1, none⟩, ⟨"xyz", "X", 2, none⟩]⟩, ⟨[]⟩⟩ : Store).pendingB "xyz" =
        false ∧
      (⟨⟨[⟨"aaa", "A", 1, none⟩, ⟨"xyz", "X", 2, none⟩]⟩, ⟨[]⟩⟩ : Store).enrolledB "xyz" =
        true) ∧
     ((⟨⟨[⟨"aaa", "A", 1, none⟩]⟩, ⟨[("c", ⟨"xyz", "X", 2, none⟩)]⟩⟩ : Store).pendingB
          "xyz" &&
        (⟨⟨[⟨"aaa", "A", 1, none⟩]⟩, ⟨[("c", ⟨"xyz", "X", 2, none⟩)]⟩⟩ : Store).enrolledB
          "xyz") = false ∧
     ((⟨⟨[⟨"aaa", "A", 1, none⟩]⟩, ⟨[]⟩⟩ : Store).pendingB "xyz" &&
        (⟨⟨[⟨"aaa", "A", 1, none⟩]⟩, ⟨[]⟩⟩ : Store).enrolledB "xyz") = false ∧
     ((⟨⟨[⟨"aaa", "A", 1, none⟩, ⟨"xyz", "X", 2, none⟩]⟩, ⟨[]⟩⟩ : Store).pendingB "xyz" &&
        (⟨⟨[⟨"aaa", "A", 1, none⟩, ⟨"xyz", "X", 2, none⟩]⟩, ⟨[]⟩⟩ : Store).enrolledB
          "xyz") = false) :=
  ⟨by decide, by decide,
    c5_promotion_two_writes ⟨⟨[⟨"aaa", "A", 1, none⟩]⟩, ⟨[("c", ⟨"xyz", "X", 2, none⟩)]⟩⟩
      "aaa" ⟨"xyz", "X", "c"⟩ ⟨⟨[⟨"aaa", "A", 1, none⟩]⟩, ⟨[]⟩⟩
      ⟨⟨[⟨"aaa", "A", 1, none⟩, ⟨"xyz", "X", 2, none⟩]⟩, ⟨[]⟩⟩ (by decide) (by decide)⟩

/-- C2: the nonce slot of every device holds at most one nonce; a successful
authenticated request consumes (clears) the requesting device's stored nonce,
and until the next nonce request the device has no stored nonce, so a second
authenticated request without fetching a fresh nonce fails with 401. -/
theorem c2_nonce_single_use (st st' : Store) (id : String) (n : List Nat)
    (hrun : consumeNonce st id = .ok (st', n)) :
    (∀ d ∈ st.devices.devices, d.nonce.toList.length ≤ 1) ∧
    (∀ d, st'.devices.find id = some d → d.nonce = none) ∧
    consumeNonce st' id = .error ⟨401⟩ := by
  refine ⟨fun d _ => by cases d.nonce <;> simp, ?_⟩
  unfold consumeNonce at hrun
  split at hrun
  · simp at hrun
  · next device hfind =>
    split at hrun
    · simp at hrun
    · next m hnon =>
      simp only [Except.ok.injEq, Prod.mk.injEq] at hrun
      obtain ⟨hst', -⟩ := hrun
      have hdid : device.id = id := devices_find_id _ _ _ hfind
      have hfind' : st'.devices.find id = some { device with nonce := none } := by
        rw [← hst']
        exact find?_setDevice st.devices.devices id device { device with nonce := none }
          hfind hdid
      constructor
      · intro d hd
        rw [hfind'] at hd
        injection hd with hd
        rw [← hd]
      · unfold consumeNonce
        rw [hfind']

/-- Witness for C2: a device with a stored nonce concretely consumed, the
resulting state with the empty slot, and the 401 on the second request. -/
theorem c2_nonce_single_use_witness :
    consumeNonce ⟨⟨[⟨"a", "A", 45, some [9, 9, 9, 9, 9, 9, 9, 9, 9, 9, 9, 9]⟩]⟩, ⟨[]⟩⟩ "a" =
      .ok (⟨⟨[⟨"a", "A", 45, none⟩]⟩, ⟨[]⟩⟩, [9, 9, 9, 9, 9, 9, 9, 9, 9, 9, 9, 9]) ∧
    ((∀ d ∈ (⟨⟨[⟨"a", "A", 45, some [9, 9, 9, 9, 9, 9, 9, 9, 9, 9, 9, 9]⟩]⟩, ⟨[]⟩⟩ :
        Store).devices.devices, d.nonce.toList.length ≤ 1) ∧
      (∀ d, (⟨⟨[⟨"a", "A", 45, none⟩]⟩, ⟨[]⟩⟩ : Store).devices.find "a" = some d →
        d.nonce = none) ∧
      consumeNonce ⟨⟨[⟨"a", "A", 45, none⟩]⟩, ⟨[]⟩⟩ "a" = .error ⟨401⟩) :=
  ⟨by decide,
    c2_nonce_single_use ⟨⟨[⟨"a", "A", 45, some [9, 9, 9, 9, 9, 9, 9, 9, 9, 9, 9, 9]⟩]⟩, ⟨[]⟩⟩
      ⟨⟨[⟨"a", "A", 45, none⟩]⟩, ⟨[]⟩⟩ "a" [9, 9, 9, 9, 9, 9, 9, 9, 9, 9, 9, 9] (by decide)⟩

/-- C10: in the `Encrypted` middleware, a request that carries the client-id
header of an enrolled device and an empty body skips decryption entirely: the
inner handler is invoked (on the empty payload) and only its successful
response is encrypted for the device.  No knowledge of the shared secret is
required to reach the handler. -/
theorem c10_empty_body_runs_handler (serverKey : Nat) (devices : Devices) (id : String)
    (d : Device) (inner : List Nat → Except ApiErr Response)
    (hfind : devices.find id = some d) :
    middlewareCall serverKey devices (some id) [] inner =
      match inner [] with
      | .error e => .error e
      | .ok res => encryptResponse serverKey d res := by
  simp [middlewareCall, hfind]

/-- Witness for C10: a concrete bodyless request from an enrolled device runs
the inner handler and returns its (encrypted) response. -/
theorem c10_empty_body_runs_handler_witness :
    (⟨[⟨"a", "A", 45, none⟩]⟩ : Devices).find "a" = some ⟨"a", "A", 45, none⟩ ∧
    middlewareCall 3 ⟨[⟨"a", "A", 45, none⟩]⟩ (some "a") []
        (fun _ => .ok ⟨200, [104, 105]⟩) =
      match (fun (_ : List Nat) => (.ok ⟨200, [104, 105]⟩ : Except ApiErr Response)) [] with
      | .error e => .error e
      | .ok res => encryptResponse 3 ⟨"a", "A", 45, none⟩ res :=
  ⟨by decide,
    c10_empty_body_runs_handler 3 ⟨[⟨"a", "A", 45, none⟩]⟩ "a" ⟨"a", "A", 45, none⟩
      (fun _ => .ok ⟨200, [104, 105]⟩) (by decide)⟩

/-- Counterexample for C4: an authenticated request from an enrolled device
whose non-empty body fails authenticated decryption is answered with status
401 by the `Encrypted` middleware — not 400 as the claim states. -/
theorem c4_counterexample :
    middlewareCall 3 ⟨[⟨"a", "A", 45, none⟩]⟩ (some "a") [0] (fun _ => .ok ⟨200, []⟩) =
      .error ⟨401⟩ ∧ (⟨401⟩ : ApiErr) ≠ ⟨400⟩ := by
  exact ⟨rfl, by decide⟩

/-- C4 (amended): a non-empty body that fails authenticated decryption is
rejected before the handler runs, but the status depends on the component
performing the decryption: 401 from the `Encrypted` middleware
(`ErrorUnauthorized`), 400 from the `EncryptedJson` extractor
(`ErrorBadRequest`), and 500 from the `EncryptedBody` extractor
(`ErrorInternalServerError`). -/
theorem c4_decrypt_failure_statuses :
    (∀ (serverKey : Nat) (devices : Devices) (id : String) (d : Device) (body : List Nat)
        (inner : List Nat → Except ApiErr Response) (msg : String),
      devices.find id = some d → body ≠ [] →
      cryptoDecrypt (d.sharedKey serverKey) body = .error msg →
      middlewareCall serverKey devices (some id) body inner = .error ⟨401⟩) ∧
    (∀ {α : Type} (parse : List Nat → Except String α) (serverKey : Nat)
        (devices : Devices) (id : String) (d : Device) (body : List Nat) (msg : String),
      devices.find id = some d →
      cryptoDecrypt (d.sharedKey serverKey) body = .error msg →
      encryptedJsonFromRequest parse serverKey devices (some id) body = .error ⟨400⟩) ∧
    (∀ {α : Type} (parse : List Nat → Except String α) (serverKey : Nat)
        (devices : Devices) (id : String) (d : Device) (body : List Nat) (msg : String),
      devices.find id = some d →
      coreDecrypt parse (d.sharedKey serverKey) body = .error msg →
      encryptedBodyFromRequest parse serverKey devices (some id) body = .error ⟨500⟩) := by
  refine ⟨?_, ?_, ?_⟩
  · intro serverKey devices id d body inner msg hfind hne hdec
    cases body with
    | nil => exact absurd rfl hne
    | cons b bs => simp [middlewareCall, hfind, hdec]
  · intro α parse serverKey devices id d body msg hfind hdec
    simp [encryptedJsonFromRequest, hfind, hdec]
  · intro α parse serverKey devices id d body msg hfind hdec
    simp [encryptedBodyFromRequest, hfind, hdec]

/-- Witness for C4 (amended): a one-byte body fails decryption at each of the
three decryption sites, with the respective statuses 401, 400 and 500. -/
theorem c4_decrypt_failure_statuses_witness :
    (⟨[⟨"a", "A", 45, none⟩]⟩ : Devices).find "a" = some ⟨"a", "A", 45, none⟩ ∧
    ([0] : List Nat) ≠ [] ∧
    cryptoDecrypt (Device.sharedKey ⟨"a", "A", 45, none⟩ 3) [0] = .error "aead error" ∧
    coreDecrypt (fun bs => Except.ok bs) (Device.sharedKey ⟨"a", "A", 45, none⟩ 3) [0] =
      .error "aead error" ∧
    middlewareCall 3 ⟨[⟨"a", "A", 45, none⟩]⟩ (some "a") [0] (fun _ => .ok ⟨200, []⟩) =
      .error ⟨401⟩ ∧
    encryptedJsonFromRequest (fun bs => Except.ok bs) 3 ⟨[⟨"a", "A", 45, none⟩]⟩
      (some "a") [0] = .error ⟨400⟩ ∧
    encryptedBodyFromRequest (fun bs => Except.ok bs) 3 ⟨[⟨"a", "A", 45, none⟩]⟩
      (some "a") [0] = .error ⟨500⟩ :=
  ⟨by decide, by decide, by decide, by decide,
    c4_decrypt_failure_statuses.1 3 ⟨[⟨"a", "A", 45, none⟩]⟩ "a" ⟨"a", "A", 45, none⟩ [0]
      (fun _ => .ok ⟨200, []⟩) "aead error" (by decide) (by decide) (by decide),
    c4_decrypt_failure_statuses.2.1 (fun bs => Except.ok bs) 3 ⟨[⟨"a", "A", 45, none⟩]⟩
      "a" ⟨"a", "A", 45, none⟩ [0] "aead error" (by decide) (by decide),
    c4_decrypt_failure_statuses.2.2 (fun bs => Except.ok bs) 3 ⟨[⟨"a", "A", 45, none⟩]⟩
      "a" ⟨"a", "A", 45, none⟩ [0] "aead error" (by decide) (by decide)⟩

/-- C3: whenever the body of an authenticated request decrypts successfully,
the extractor that feeds the route handler hands it the decoded (decrypted
and deserialized) payload — the value is the deserialization of the decrypted
plaintext, not the original ciphertext bytes. -/
theorem c3_handler_receives_decoded_payload :
    (∀ {α : Type} (parse : List Nat → Except String α) (serverKey : Nat)
        (devices : Devices) (header : Option String) (body : List Nat) (v : α),
      encryptedJsonFromRequest parse serverKey devices header body = .ok v →
      ∃ id d msg, header = some id ∧ devices.find id = some d ∧
        cryptoDecrypt (d.sharedKey serverKey) body = .ok msg ∧ parse msg = .ok v) ∧
    (∀ {α : Type} (parse : List Nat → Except String α) (serverKey : Nat)
        (devices : Devices) (header : Option String) (body : List Nat) (v : α)
        (id : String),
      encryptedBodyFromRequest parse serverKey devices header body = .ok (v, id) →
      ∃ d, header = some id ∧ devices.find id = some d ∧
        coreDecrypt parse (d.sharedKey serverKey) body = .ok v) := by
  constructor
  · intro α parse serverKey devices header body v h
    unfold encryptedJsonFromRequest at h
    split at h
    · simp at h
    · next i =>
      split at h
      · simp at h
      · next d hfind =>
        split at h
        · simp at h
        · next msg hdec =>
          split at h
          · next w hparse =>
            simp only [Except.ok.injEq] at h
            exact ⟨i, d, msg, rfl, hfind, hdec, h ▸ hparse⟩
          · simp at h
  · intro α parse serverKey devices header body v id h
    unfold encryptedBodyFromRequest at h
    split at h
    · simp at h
    · next i =>
      split at h
      · simp at h
      · next d hfind =>
        split at h
        · simp at h
        · next w hdec =>
          simp only [Except.ok.injEq, Prod.mk.injEq] at h
          obtain ⟨hv, hid⟩ := h
          exact ⟨d, by rw [hid], by rw [← hid]; exact hfind, hv ▸ hdec⟩

set_option maxRecDepth 40000 in
/-- Witness for C3: a concretely encrypted two-byte message is decoded by both
extractors back to the plaintext the handler receives. -/
theorem c3_handler_receives_decoded_payload_witness :
    encryptedJsonFromRequest (fun bs => Except.ok bs) 3 ⟨[⟨"a", "A", 45, none⟩]⟩
      (some "a") (cryptoEncrypt (dhShared 3 45) [104, 105]) = .ok [104, 105] ∧
    encryptedBodyFromRequest (fun bs => Except.ok bs) 3 ⟨[⟨"a", "A", 45, none⟩]⟩
      (some "a") (cryptoEncrypt (dhShared 3 45) [104, 105]) = .ok ([104, 105], "a") ∧
    (∃ id d msg, (some "a" : Option String) = some id ∧
      (⟨[⟨"a", "A", 45, none⟩]⟩ : Devices).find id = some d ∧
      cryptoDecrypt (d.sharedKey 3) (cryptoEncrypt (dhShared 3 45) [104, 105]) = .ok msg ∧
      (fun bs => (Except.ok bs : Except String (List Nat))) msg = .ok [104, 105]) ∧
    (∃ d, (some "a" : Option String) = some "a" ∧
      (⟨[⟨"a", "A", 45, none⟩]⟩ : Devices).find "a" = some d ∧
      coreDecrypt (fun bs => Except.ok bs) (d.sharedKey 3)
        (cryptoEncrypt (dhShared 3 45) [104, 105]) = .ok [104, 105]) :=
  ⟨by decide, by decide,
    c3_handler_receives_decoded_payload.1 (fun bs => Except.ok bs) 3
      ⟨[⟨"a", "A", 45, none⟩]⟩ (some "a") (cryptoEncrypt (dhShared 3 45) [104, 105])
      [104, 105] (by decide),
    c3_handler_receives_decoded_payload.2 (fun bs => Except.ok bs) 3
      ⟨[⟨"a", "A", 45, none⟩]⟩ (some "a") (cryptoEncrypt (dhShared 3 45) [104, 105])
      [104, 105] "a" (by decide)⟩

/-- C9: encryption round-trip.  The Diffie-Hellman shared secret is symmetric
in its two parties, and decryption inverts encryption under the same shared
secret and 12-byte nonce: decrypting with the shared secret computed on one
side the ciphertext encrypted with the shared secret computed on the other
side returns the original (UTF-8) message. -/
theorem c9_encryption_round_trip (a b : Nat) (nonce m : List Nat)
    (hn : nonce.length = 12) (hm : utf8Valid m = true) :
    decryptWithNonce (dhShared b (publicOf a)) nonce
      (encryptWithNonce (dhShared a (publicOf b)) nonce m) = .ok m := by
  rw [← dhShared_symm]
  unfold decryptWithNonce encryptWithNonce
  rw [aead_roundtrip _ _ _ (sharedToBytes_length _) hn]
  simp [hm]

/-- Witness for C9: a concrete round trip between the key pairs of scalars 3
and 5, over the source's fixed nonce. -/
theorem c9_encryption_round_trip_witness :
    fixedNonce.length = 12 ∧ utf8Valid [104, 105] = true ∧
    decryptWithNonce (dhShared 5 (publicOf 3)) fixedNonce
      (encryptWithNonce (dhShared 3 (publicOf 5)) fixedNonce [104, 105]) =
      .ok [104, 105] :=
  ⟨by decide, by decide,
    c9_encryption_round_trip 3 5 fixedNonce [104, 105] (by decide) (by decide)⟩

end Keybear
